import Mathlib

/-!
Verification of the schedule / session / attendance rules engine.

Shallow embedding notes:
* Times of day (`startTime`, `endTime` of a schedule) are modelled as `Nat`
  minutes; the source stores zero-padded `HH:MM:SS` strings whose
  lexicographic order (used by the Prisma `lt`/`lte`/`gt`/`gte` filters)
  coincides with chronological order, so the order embedding is exact.
* Absolute instants (`now`, `startedAt`, `checkInTime`, session dates) are
  `Nat` minutes since an epoch.  A session `date` is the instant of midnight
  of that date, so combining a date with a time of day is addition, and the
  `setMinutes(+threshold)` arithmetic of the source is `+ threshold`.
* The persistent store is a `Store` record of lists; every service function
  becomes `request → now → Store → Except ResponseError Store`, returning
  the whole post-state on success.  A thrown `ResponseError` leaves the
  store untouched, exactly like a failed request / aborted transaction.
* Face-confidence scores (floats in `0..1` in the source) are modelled as
  hundredths (`Nat` in `0..100`); no claim depends on their numeric value.
-/

/-- Attendance status enum of the data model. -/
inductive AttStatus where
  | present
  | absent
  | late
  | excused
deriving DecidableEq, Repr

/-- Session lifecycle status enum of the data model. -/
inductive SessionStatus where
  | ongoing
  | completed
  | cancelled
deriving DecidableEq, Repr

/-- Attendance marking method (`'manual' | 'face_recognition'`). -/
inductive MarkMethod where
  | manual
  | faceRecognition
deriving DecidableEq, Repr

/-- `ResponseError(status, message)` of the source. -/
structure ResponseError where
  status : Nat
  message : String
deriving DecidableEq, Repr

/-- A `classSchedule` row (a recurring weekly time-slot). -/
structure ClassSchedule where
  id : Nat
  teacherId : Nat
  classId : Nat
  subjectId : Nat
  dayOfWeek : Nat
  startTime : Nat
  endTime : Nat
  room : String
  academicPeriodId : Nat
  isActive : Bool
deriving DecidableEq, Repr

/-- A class with its current roster of enrolled student ids. -/
structure SchoolClass where
  id : Nat
  students : List Nat
deriving DecidableEq, Repr

/-- An `attendanceSession` row. -/
structure Session where
  id : Nat
  classScheduleId : Nat
  date : Nat
  status : SessionStatus
  startedAt : Nat
  endedAt : Option Nat
  notes : Option String
  createdBy : Nat
deriving DecidableEq, Repr

/-- An `attendance` row. -/
structure AttendanceRecord where
  id : Nat
  attendanceSessionId : Nat
  studentId : Nat
  status : AttStatus
  checkInTime : Option Nat
  attendanceMethod : Option MarkMethod
  faceConfidence : Option Nat
  markedBy : Option Nat
  notes : Option String
deriving DecidableEq, Repr

/-- The persistent store.  `nextScheduleId`, `nextSessionId` and
`nextAttendanceId` model the auto-increment id sequences. -/
structure Store where
  schedules : List ClassSchedule
  classes : List SchoolClass
  sessions : List Session
  attendances : List AttendanceRecord
  nextScheduleId : Nat
  nextSessionId : Nat
  nextAttendanceId : Nat
deriving DecidableEq, Repr

/-- JS `x || null` on an optional string: empty string collapses to null. -/
def jsStrOrNull (x : Option String) : Option String :=
  match x with
  | some s => if s = "" then none else some s
  | none => none

/-- JS `x || null` on an optional number: `0` collapses to null. -/
def jsNumOrNull (x : Option Nat) : Option Nat :=
  match x with
  | some 0 => none
  | x => x

/-! ## schedule.helper.js : checkTimeConflict -/

/-- Argument record of `checkTimeConflict`. -/
structure ConflictParams where
  teacherId : Nat
  classId : Nat
  dayOfWeek : Nat
  startTime : Nat
  endTime : Nat
  academicPeriodId : Nat
  excludeScheduleId : Option Nat
deriving DecidableEq, Repr

/-- The shared `whereClause` of both conflict scans: same day of week, same
academic period, active, and not the excluded schedule id. -/
def matchesWhereClause (p : ConflictParams) (s : ClassSchedule) : Bool :=
  s.dayOfWeek == p.dayOfWeek && s.academicPeriodId == p.academicPeriodId &&
    s.isActive &&
    (match p.excludeScheduleId with
     | some e => s.id != e
     | none => true)

/-- The `OR` of the three `AND`ed range conditions of `checkTimeConflict`,
with `startTime`/`endTime` the candidate interval and `s` the existing slot.
Each Prisma filter such as `startTime: { lte: startTime }` compares the
existing row field on the left with the candidate value on the right. -/
def overlapsRange (startTime endTime : Nat) (s : ClassSchedule) : Bool :=
  (s.startTime ≤ startTime && s.endTime > startTime) ||
  (s.startTime < endTime && s.endTime ≥ endTime) ||
  (s.startTime ≥ startTime && s.endTime ≤ endTime)

/-- Result record `{ hasConflict, message }` of `checkTimeConflict`. -/
structure ConflictResult where
  hasConflict : Bool
  message : Option String
deriving DecidableEq, Repr

/-- `checkTimeConflict`: the teacher scan runs first, then the class scan;
the first matching row wins (`findFirst`). -/
def checkTimeConflict (p : ConflictParams) (store : List ClassSchedule) :
    ConflictResult :=
  match store.find? (fun s => matchesWhereClause p s &&
      s.teacherId == p.teacherId && overlapsRange p.startTime p.endTime s) with
  | some s =>
    { hasConflict := true,
      message := some ("Teacher has conflicting schedule at " ++
        toString s.startTime ++ "-" ++ toString s.endTime) }
  | none =>
    match store.find? (fun s => matchesWhereClause p s &&
        s.classId == p.classId && overlapsRange p.startTime p.endTime s) with
    | some s =>
      { hasConflict := true,
        message := some ("Class has conflicting schedule at " ++
          toString s.startTime ++ "-" ++ toString s.endTime) }
    | none => { hasConflict := false, message := none }

/-! ## attendance.helper.js : pure helpers -/

/-- `determineAttendanceStatus(checkInTime, sessionDate, scheduledStartTime,
lateThresholdMinutes)`: combines the session date with the scheduled start
time, adds the late threshold, and classifies the check-in. -/
def determineAttendanceStatus (checkInTime sessionDate scheduledStartTime
    lateThresholdMinutes : Nat) : AttStatus :=
  let scheduledDateTime := sessionDate + scheduledStartTime
  let lateThreshold := scheduledDateTime + lateThresholdMinutes
  if checkInTime ≤ lateThreshold then .present else .late

/-- `validateSessionActive(session)`: throws 400 for a completed or a
cancelled session, succeeds otherwise. -/
def validateSessionActive (session : Session) : Except ResponseError Unit :=
  if session.status = .completed then
    .error ⟨400, "Cannot modify attendance for completed session"⟩
  else if session.status = .cancelled then
    .error ⟨400, "Cannot modify attendance for cancelled session"⟩
  else .ok ()

/-- Risk tiers returned by `getAttendanceRiskLevel`. -/
inductive RiskLevel where
  | low
  | medium
  | high
  | critical
deriving DecidableEq, Repr

/-- `getAttendanceRiskLevel(attendanceRate, consecutiveAbsences)`: the
if/else-if chain of the source, evaluated in order. -/
def getAttendanceRiskLevel (attendanceRate : Int) (consecutiveAbsences : Nat) :
    RiskLevel :=
  if consecutiveAbsences ≥ 5 ∨ attendanceRate < 50 then .critical
  else if consecutiveAbsences ≥ 3 ∨ attendanceRate < 70 then .high
  else if consecutiveAbsences ≥ 2 ∨ attendanceRate < 80 then .medium
  else .low

/-! ## Store lookups (Prisma queries) -/

/-- `attendanceSession.findUnique({ where: { id } })`. -/
def findSession (st : Store) (i : Nat) : Option Session :=
  st.sessions.find? (fun s => s.id == i)

/-- `attendance.findUnique({ where: { id } })`. -/
def findAttendanceById (st : Store) (i : Nat) : Option AttendanceRecord :=
  st.attendances.find? (fun a => a.id == i)

/-- `attendance.findFirst({ where: { attendanceSessionId, studentId } })`. -/
def findAttendanceFor (st : Store) (sessionId studentId : Nat) :
    Option AttendanceRecord :=
  st.attendances.find? (fun a =>
    a.attendanceSessionId == sessionId && a.studentId == studentId)

/-- `classSchedule` lookup by id (the included relation of a session). -/
def findSchedule (st : Store) (i : Nat) : Option ClassSchedule :=
  st.schedules.find? (fun s => s.id == i)

/-- `class` lookup by id (the included relation of a schedule). -/
def findClass (st : Store) (i : Nat) : Option SchoolClass :=
  st.classes.find? (fun c => c.id == i)

/-- `classSchedule.findFirst({ where: { id, teacherId, isActive: true } })`
used by `createSession` to verify the teacher owns the schedule. -/
def findOwnedActiveSchedule (st : Store) (scheduleId teacherId : Nat) :
    Option ClassSchedule :=
  st.schedules.find? (fun s =>
    s.id == scheduleId && s.teacherId == teacherId && s.isActive)

/-- `attendanceSession.findFirst({ where: { classScheduleId, date } })`
used by `createSession` for the duplicate-date check. -/
def findDuplicateSession (st : Store) (scheduleId date : Nat) :
    Option Session :=
  st.sessions.find? (fun s =>
    s.classScheduleId == scheduleId && s.date == date)

/-! ## session.service.js -/

/-- Request of `createSession` (after HTTP parsing). -/
structure CreateSessionRequest where
  classScheduleId : Nat
  date : Nat
  notes : Option String
  profileId : Nat
deriving DecidableEq, Repr

/-- The `attendances.create` nested write of `createSession`: one row per
roster member, status `absent`, all other mutable fields at their defaults
(`checkInTime` null in particular).  Ids are drawn from the sequence. -/
def mkAttendanceRows (baseId sessionId : Nat) :
    List Nat → List AttendanceRecord
  | [] => []
  | stu :: rest =>
    { id := baseId, attendanceSessionId := sessionId, studentId := stu,
      status := .absent, checkInTime := none, attendanceMethod := none,
      faceConfidence := none, markedBy := none, notes := none } ::
      mkAttendanceRows (baseId + 1) sessionId rest

/-- `createSession`: Joi validation, ownership lookup (with the included
class roster), duplicate-date check, then one session plus one attendance
row per currently enrolled student. -/
def createSession (req : CreateSessionRequest) (now : Nat) (st : Store) :
    Except ResponseError Store :=
  if req.classScheduleId = 0 then
    .error ⟨400, "Class schedule ID must be positive"⟩
  else if (req.notes.getD "").length > 500 then
    .error ⟨400, "Notes cannot exceed 500 characters"⟩
  else if req.profileId = 0 then
    .error ⟨400, "Profile ID is required"⟩
  else
    match findOwnedActiveSchedule st req.classScheduleId req.profileId with
    | none => .error ⟨404, "Schedule not found or unauthorized"⟩
    | some schedule =>
      -- the class and its students come included with the schedule query;
      -- a missing class row is impossible under foreign-key integrity
      match findClass st schedule.classId with
      | none => .error ⟨404, "Schedule not found or unauthorized"⟩
      | some cls =>
        match findDuplicateSession st req.classScheduleId req.date with
        | some _ => .error ⟨400, "Session already exists for this date"⟩
        | none =>
          .ok { st with
            sessions := st.sessions ++
              [{ id := st.nextSessionId,
                 classScheduleId := req.classScheduleId,
                 date := req.date, status := .ongoing, startedAt := now,
                 endedAt := none, notes := jsStrOrNull req.notes,
                 createdBy := req.profileId }],
            attendances := st.attendances ++
              mkAttendanceRows st.nextAttendanceId st.nextSessionId
                cls.students,
            nextSessionId := st.nextSessionId + 1,
            nextAttendanceId := st.nextAttendanceId + cls.students.length }

/-- Request of `updateSessionStatus`.  The requested status arrives as a
raw string and is checked against the Joi enum, which deliberately lists
all three values `ongoing`, `completed`, `cancelled`. -/
structure UpdateStatusRequest where
  sessionId : Nat
  status : String
  profileId : Nat
deriving DecidableEq, Repr

/-- The `valid(...)` list of `updateSessionStatusSchema`. -/
def validStatusStrings : List String := ["ongoing", "completed", "cancelled"]

/-- Interpret a schema-validated status string as the closed enum. -/
def parseSessionStatus (s : String) : SessionStatus :=
  if s = "completed" then .completed
  else if s = "cancelled" then .cancelled
  else .ongoing

/-- `updateSessionStatus`: Joi validation, lookup, ownership, terminal-state
guard, then the update.  `endedAt` is stamped with `now` exactly when the
requested status is `completed` or `cancelled`, and reset to null
otherwise. -/
def updateSessionStatus (req : UpdateStatusRequest) (now : Nat) (st : Store) :
    Except ResponseError Store :=
  if req.sessionId = 0 then
    .error ⟨400, "Session ID must be positive"⟩
  else if !(validStatusStrings.contains req.status) then
    .error ⟨400, "Status must be one of: ongoing, completed, cancelled"⟩
  else if req.profileId = 0 then
    .error ⟨400, "Profile ID is required"⟩
  else
    match findSession st req.sessionId with
    | none => .error ⟨404, "Session not found"⟩
    | some session =>
      if session.createdBy ≠ req.profileId then
        .error ⟨403, "Unauthorized to access this session"⟩
      else if session.status = .completed then
        .error ⟨400, "Cannot modify completed session"⟩
      else if session.status = .cancelled then
        .error ⟨400, "Cannot modify cancelled session"⟩
      else
        .ok { st with
          sessions := st.sessions.map (fun s =>
            if s.id == req.sessionId then
              { s with
                status := parseSessionStatus req.status,
                endedAt :=
                  if req.status == "completed" || req.status == "cancelled"
                  then some now else none }
            else s) }

/-! ## attendance.service.js -/

/-- One element of the `attendances` array of a bulk-mark request (already
past the Joi status enum, hence a closed `AttStatus`). -/
structure AttendanceUpdate where
  attendanceId : Nat
  status : AttStatus
  notes : Option String
deriving DecidableEq, Repr

/-- Request of `markAttendance` (bulk). -/
structure MarkAttendanceRequest where
  sessionId : Nat
  attendances : List AttendanceUpdate
  profileId : Nat
deriving DecidableEq, Repr

/-- The per-row `data` payload shared by `markAttendance` and
`markSingleAttendance`: manual method, marker = teacher, notes or null, and
`checkInTime = now` exactly when the new status is not `absent`. -/
def applyMark (now profileId : Nat) (upd : AttendanceUpdate)
    (a : AttendanceRecord) : AttendanceRecord :=
  { a with
    status := upd.status,
    checkInTime := if upd.status ≠ .absent then some now else none,
    attendanceMethod := some .manual,
    markedBy := some profileId,
    notes := jsStrOrNull upd.notes }

/-- The `$transaction` of `markAttendance`: each `attendance.update` is
keyed by `{ id: attendanceId, attendanceSessionId: sessionId }`; a row that
matches no record aborts the whole transaction (Prisma P2025), so nothing
is committed. -/
def runMarkTx (sessionId now profileId : Nat) :
    List AttendanceUpdate → List AttendanceRecord →
    Except ResponseError (List AttendanceRecord)
  | [], l => .ok l
  | upd :: rest, l =>
    if (l.find? (fun a => a.id == upd.attendanceId &&
        a.attendanceSessionId == sessionId)).isSome then
      runMarkTx sessionId now profileId rest
        (l.map (fun a =>
          if a.id == upd.attendanceId &&
              a.attendanceSessionId == sessionId then
            applyMark now profileId upd a
          else a))
    else .error ⟨404, "Record to update not found"⟩

/-- `markAttendance`: Joi validation, session lookup, ownership,
`validateSessionActive`, then the transactional batch. -/
def markAttendance (req : MarkAttendanceRequest) (now : Nat) (st : Store) :
    Except ResponseError Store :=
  if req.sessionId = 0 then
    .error ⟨400, "Session ID is required"⟩
  else if req.attendances.isEmpty then
    .error ⟨400, "At least one attendance record is required"⟩
  else if req.attendances.any (fun u => u.attendanceId = 0) then
    .error ⟨400, "Attendance ID must be positive"⟩
  else if req.attendances.any (fun u => (u.notes.getD "").length > 255) then
    .error ⟨400, "Notes cannot exceed 255 characters"⟩
  else if req.profileId = 0 then
    .error ⟨400, "Profile ID is required"⟩
  else
    match findSession st req.sessionId with
    | none => .error ⟨404, "Session not found"⟩
    | some session =>
      if session.createdBy ≠ req.profileId then
        .error ⟨403, "Unauthorized to mark attendance for this session"⟩
      else
        match validateSessionActive session with
        | .error e => .error e
        | .ok _ =>
          match runMarkTx req.sessionId now req.profileId
              req.attendances st.attendances with
          | .error e => .error e
          | .ok l => .ok { st with attendances := l }

/-- Request of `markSingleAttendance`. -/
structure MarkSingleRequest where
  attendanceId : Nat
  status : AttStatus
  notes : Option String
  profileId : Nat
deriving DecidableEq, Repr

/-- `markSingleAttendance`: identical per-record rule, single row, keyed by
`{ id: attendanceId }` alone. -/
def markSingleAttendance (req : MarkSingleRequest) (now : Nat) (st : Store) :
    Except ResponseError Store :=
  if req.attendanceId = 0 then
    .error ⟨400, "Attendance ID is required"⟩
  else if (req.notes.getD "").length > 255 then
    .error ⟨400, "Notes cannot exceed 255 characters"⟩
  else if req.profileId = 0 then
    .error ⟨400, "Profile ID is required"⟩
  else
    match findAttendanceById st req.attendanceId with
    | none => .error ⟨404, "Attendance record not found"⟩
    | some att =>
      -- the session comes included with the attendance row; a missing
      -- session row is impossible under foreign-key integrity
      match findSession st att.attendanceSessionId with
      | none => .error ⟨404, "Attendance record not found"⟩
      | some session =>
        if session.createdBy ≠ req.profileId then
          .error ⟨403, "Unauthorized to modify this attendance"⟩
        else
          match validateSessionActive session with
          | .error e => .error e
          | .ok _ =>
            .ok { st with
              attendances := st.attendances.map (fun a =>
                if a.id == req.attendanceId then
                  applyMark now req.profileId
                    ⟨req.attendanceId, req.status, req.notes⟩ a
                else a) }

/-- Request of `studentCheckIn`. -/
structure CheckInRequest where
  sessionId : Nat
  studentId : Nat
  method : Option MarkMethod
  faceConfidence : Option Nat
deriving DecidableEq, Repr

/-- `studentCheckIn`: session must exist and be `ongoing`, the attendance
row must exist and still be `absent`; the status is then determined from
the check-in instant against the slot start time with the default
15-minute threshold. -/
def studentCheckIn (req : CheckInRequest) (now : Nat) (st : Store) :
    Except ResponseError Store :=
  if req.sessionId = 0 then
    .error ⟨400, "Session ID is required"⟩
  else if req.studentId = 0 then
    .error ⟨400, "Student ID is required"⟩
  else if (req.faceConfidence.getD 0) > 100 then
    .error ⟨400, "Face confidence must be between 0 and 1"⟩
  else
    match findSession st req.sessionId with
    | none => .error ⟨404, "Session not found"⟩
    | some session =>
      if session.status ≠ .ongoing then
        .error ⟨400, "Session is not active for check-in"⟩
      else
        match findAttendanceFor st req.sessionId req.studentId with
        | none => .error ⟨404, "Attendance record not found for this session"⟩
        | some att =>
          if att.status ≠ .absent then
            .error ⟨400, "Already checked in for this session"⟩
          else
            -- the schedule comes included with the session query; a missing
            -- schedule row is impossible under foreign-key integrity
            match findSchedule st session.classScheduleId with
            | none => .error ⟨404, "Session not found"⟩
            | some schedule =>
              .ok { st with
                attendances := st.attendances.map (fun a =>
                  if a.id == att.id then
                    { a with
                      status := determineAttendanceStatus now session.date
                        schedule.startTime 15,
                      checkInTime := some now,
                      attendanceMethod :=
                        some (req.method.getD .faceRecognition),
                      faceConfidence := jsNumOrNull req.faceConfidence }
                  else a) }

/-! ## schedule.service.js : bulkCreateSchedules -/

/-- One element of the `schedules` array of a bulk-create request. -/
structure NewScheduleData where
  classId : Nat
  subjectId : Nat
  teacherId : Nat
  dayOfWeek : Nat
  startTime : Nat
  endTime : Nat
  room : String
  academicPeriodId : Nat
deriving DecidableEq, Repr

/-- The `checkTimeConflict` argument built for a bulk candidate (no
exclusion id). -/
def toConflictParams (r : NewScheduleData) : ConflictParams :=
  { teacherId := r.teacherId, classId := r.classId,
    dayOfWeek := r.dayOfWeek, startTime := r.startTime,
    endTime := r.endTime, academicPeriodId := r.academicPeriodId,
    excludeScheduleId := none }

/-- The `$transaction` of `bulkCreateSchedules`: every candidate is
inserted with `isActive: true` and a fresh id. -/
def mkSchedules (baseId : Nat) : List NewScheduleData → List ClassSchedule
  | [] => []
  | r :: rest =>
    { id := baseId, teacherId := r.teacherId, classId := r.classId,
      subjectId := r.subjectId, dayOfWeek := r.dayOfWeek,
      startTime := r.startTime, endTime := r.endTime, room := r.room,
      academicPeriodId := r.academicPeriodId, isActive := true } ::
      mkSchedules (baseId + 1) rest

/-- `bulkCreateSchedules`: each candidate is conflict-checked against the
persisted store only — never against the other candidates of the same
batch — and on the first conflict the whole call fails; otherwise all
candidates are created in one transaction. -/
def bulkCreateSchedules (reqs : List NewScheduleData) (st : Store) :
    Except ResponseError Store :=
  match reqs.find? (fun r =>
      (checkTimeConflict (toConflictParams r) st.schedules).hasConflict) with
  | some r =>
    .error ⟨400, "Conflict for schedule with start time " ++
      toString r.startTime⟩
  | none =>
    .ok { st with
      schedules := st.schedules ++ mkSchedules st.nextScheduleId reqs,
      nextScheduleId := st.nextScheduleId + reqs.length }

/-- Boolean success test for a service call. -/
def resultOk (r : Except ResponseError Store) : Bool :=
  match r with
  | .ok _ => true
  | .error _ => false

/-! ## Theorems -/

theorem overlapsRange_eq_overlap (a b : Nat) (s : ClassSchedule)
    (hab : a < b) (hs : s.startTime < s.endTime) :
    overlapsRange a b s =
      (decide (a < s.endTime) && decide (s.startTime < b)) := by
  rw [Bool.eq_iff_iff]
  simp only [overlapsRange, Bool.or_eq_true, Bool.and_eq_true,
    decide_eq_true_eq]
  omega

/-- C1: for a valid candidate interval and valid stored slots, the three
OR'd range conditions are equivalent to the half-open-interval overlap
`candidate.start < existing.end ∧ existing.start < candidate.end`; a slot
whose end equals the candidate start is never flagged; and
`checkTimeConflict` reports a conflict exactly when some in-scope slot with
the same teacher or the same class overlaps in this sense. -/
theorem checkTimeConflict_halfopen (p : ConflictParams)
    (store : List ClassSchedule)
    (hp : p.startTime < p.endTime)
    (hs : ∀ s ∈ store, s.startTime < s.endTime) :
    (∀ s ∈ store, (overlapsRange p.startTime p.endTime s = true ↔
        (p.startTime < s.endTime ∧ s.startTime < p.endTime)))
    ∧ (∀ s ∈ store, s.endTime = p.startTime →
        overlapsRange p.startTime p.endTime s = false)
    ∧ ((checkTimeConflict p store).hasConflict = true ↔
        ∃ s ∈ store, matchesWhereClause p s = true ∧
          (s.teacherId = p.teacherId ∨ s.classId = p.classId) ∧
          p.startTime < s.endTime ∧ s.startTime < p.endTime) := by
  have hov : ∀ s ∈ store, overlapsRange p.startTime p.endTime s =
      (decide (p.startTime < s.endTime) && decide (s.startTime < p.endTime)) :=
    fun s hmem => overlapsRange_eq_overlap _ _ _ hp (hs s hmem)
  refine ⟨?_, ?_, ?_⟩
  · intro s hmem
    rw [hov s hmem]
    simp
  · intro s hmem he
    rw [hov s hmem, he]
    simp
  · have keyT : (store.find? (fun s => matchesWhereClause p s &&
        s.teacherId == p.teacherId &&
        overlapsRange p.startTime p.endTime s)).isSome ↔
        ∃ s ∈ store, matchesWhereClause p s = true ∧
          s.teacherId = p.teacherId ∧
          p.startTime < s.endTime ∧ s.startTime < p.endTime := by
      rw [List.find?_isSome]
      constructor
      · rintro ⟨s, hmem, hps⟩
        rw [hov s hmem] at hps
        simp only [Bool.and_eq_true, decide_eq_true_eq, beq_iff_eq] at hps
        exact ⟨s, hmem, hps.1.1, hps.1.2, hps.2⟩
      · rintro ⟨s, hmem, h1, h2, h3, h4⟩
        refine ⟨s, hmem, ?_⟩
        rw [hov s hmem]
        simp only [Bool.and_eq_true, decide_eq_true_eq, beq_iff_eq]
        exact ⟨⟨h1, h2⟩, h3, h4⟩
    have keyC : (store.find? (fun s => matchesWhereClause p s &&
        s.classId == p.classId &&
        overlapsRange p.startTime p.endTime s)).isSome ↔
        ∃ s ∈ store, matchesWhereClause p s = true ∧
          s.classId = p.classId ∧
          p.startTime < s.endTime ∧ s.startTime < p.endTime := by
      rw [List.find?_isSome]
      constructor
      · rintro ⟨s, hmem, hps⟩
        rw [hov s hmem] at hps
        simp only [Bool.and_eq_true, decide_eq_true_eq, beq_iff_eq] at hps
        exact ⟨s, hmem, hps.1.1, hps.1.2, hps.2⟩
      · rintro ⟨s, hmem, h1, h2, h3, h4⟩
        refine ⟨s, hmem, ?_⟩
        rw [hov s hmem]
        simp only [Bool.and_eq_true, decide_eq_true_eq, beq_iff_eq]
        exact ⟨⟨h1, h2⟩, h3, h4⟩
    have heval : (checkTimeConflict p store).hasConflict = true ↔
        ((store.find? (fun s => matchesWhereClause p s &&
          s.teacherId == p.teacherId &&
          overlapsRange p.startTime p.endTime s)).isSome ∨
         (store.find? (fun s => matchesWhereClause p s &&
          s.classId == p.classId &&
          overlapsRange p.startTime p.endTime s)).isSome) := by
      unfold checkTimeConflict
      rcases store.find? (fun s => matchesWhereClause p s &&
          s.teacherId == p.teacherId &&
          overlapsRange p.startTime p.endTime s) with _ | s
      <;> rcases store.find? (fun s => matchesWhereClause p s &&
          s.classId == p.classId &&
          overlapsRange p.startTime p.endTime s) with _ | s'
      <;> simp
    rw [heval, keyT, keyC]
    constructor
    · rintro (⟨s, hm, h1, h2, h3⟩ | ⟨s, hm, h1, h2, h3⟩)
      · exact ⟨s, hm, h1, Or.inl h2, h3⟩
      · exact ⟨s, hm, h1, Or.inr h2, h3⟩
    · rintro ⟨s, hm, h1, h2 | h2, h3⟩
      · exact Or.inl ⟨s, hm, h1, h2, h3⟩
      · exact Or.inr ⟨s, hm, h1, h2, h3⟩

/-- A slot 07:00-08:00 on the same day and period as a candidate
08:00-09:30 for the same teacher and class: touching endpoints. -/
def slotTouchC1 : ClassSchedule :=
  { id := 1, teacherId := 2, classId := 3, subjectId := 4, dayOfWeek := 1,
    startTime := 420, endTime := 480, room := "R1", academicPeriodId := 9,
    isActive := true }

/-- Candidate slot 08:00-09:30 matching `slotTouchC1` on scope fields. -/
def paramsC1 : ConflictParams :=
  { teacherId := 2, classId := 3, dayOfWeek := 1, startTime := 480,
    endTime := 570, academicPeriodId := 9, excludeScheduleId := none }

/-- C1 witness: the touching slot is not flagged by the range conditions,
and the full scan reports no conflict. -/
theorem checkTimeConflict_halfopen_witness :
    overlapsRange 480 570 slotTouchC1 = false ∧
    (checkTimeConflict paramsC1 [slotTouchC1]).hasConflict = false :=
  ⟨(checkTimeConflict_halfopen paramsC1 [slotTouchC1] (by decide)
      (by decide)).2.1 slotTouchC1 (by decide) (by decide),
   by decide⟩

/-- C5: with the default 15-minute threshold, a check-in is `present`
exactly when it is at most 15 minutes after the scheduled start (the date
combined with the slot start time); in particular start+10 and exactly
start+15 give `present` while start+20 gives `late`. -/
theorem determineAttendanceStatus_threshold (now date startT : Nat) :
    (determineAttendanceStatus now date startT 15 = .present ↔
      now ≤ date + startT + 15)
    ∧ determineAttendanceStatus (date + startT + 10) date startT 15 =
        .present
    ∧ determineAttendanceStatus (date + startT + 20) date startT 15 = .late
    ∧ determineAttendanceStatus (date + startT + 15) date startT 15 =
        .present := by
  unfold determineAttendanceStatus
  dsimp only
  refine ⟨?_, ?_, ?_, ?_⟩
  · split
    · simp only [true_iff]
      omega
    · simp only [iff_false, reduceCtorEq, false_iff]
      omega
  · rw [if_pos (by omega)]
  · rw [if_neg (by omega)]
  · rw [if_pos (by omega)]

/-- C9: the risk tiers are evaluated in fixed order with OR'd conditions,
so each level is characterised by its tier condition and the negation of
the earlier tiers; `critical` follows from five consecutive absences
whatever the rate. -/
theorem getAttendanceRiskLevel_tiers (rate : Int) (c : Nat) :
    (getAttendanceRiskLevel rate c = .critical ↔ (5 ≤ c ∨ rate < 50))
    ∧ (getAttendanceRiskLevel rate c = .high ↔
        (¬(5 ≤ c ∨ rate < 50) ∧ (3 ≤ c ∨ rate < 70)))
    ∧ (getAttendanceRiskLevel rate c = .medium ↔
        (¬(5 ≤ c ∨ rate < 50) ∧ ¬(3 ≤ c ∨ rate < 70) ∧
          (2 ≤ c ∨ rate < 80)))
    ∧ (getAttendanceRiskLevel rate c = .low ↔
        (¬(5 ≤ c ∨ rate < 50) ∧ ¬(3 ≤ c ∨ rate < 70) ∧
          ¬(2 ≤ c ∨ rate < 80)))
    ∧ (5 ≤ c → getAttendanceRiskLevel rate c = .critical) := by
  unfold getAttendanceRiskLevel
  refine ⟨?_, ?_, ?_, ?_, ?_⟩ <;> split_ifs with h1 h2 h3 <;> simp_all

/-- C9 witness: six consecutive absences with a 95 percent rate are still
`critical`. -/
theorem getAttendanceRiskLevel_tiers_witness :
    getAttendanceRiskLevel 95 6 = .critical :=
  (getAttendanceRiskLevel_tiers 95 6).2.2.2.2 (by decide)

/-- Bulk candidate 08:00-09:30 for teacher 2, class 3, Monday, period 9. -/
def bulkReqA : NewScheduleData :=
  { classId := 3, subjectId := 4, teacherId := 2, dayOfWeek := 1,
    startTime := 480, endTime := 570, room := "R1", academicPeriodId := 9 }

/-- Bulk candidate 09:00-10:00 for the same teacher, class, day, period:
it overlaps `bulkReqA` on 09:00-09:30. -/
def bulkReqB : NewScheduleData :=
  { classId := 3, subjectId := 5, teacherId := 2, dayOfWeek := 1,
    startTime := 540, endTime := 600, room := "R2", academicPeriodId := 9 }

/-- A store with no persisted schedules at all. -/
def emptyStore : Store :=
  { schedules := [], classes := [], sessions := [], attendances := [],
    nextScheduleId := 1, nextSessionId := 1, nextAttendanceId := 1 }

/-- The row `bulkCreateSchedules` inserts for `bulkReqA`. -/
def bulkCreatedA : ClassSchedule :=
  { id := 1, teacherId := 2, classId := 3, subjectId := 4, dayOfWeek := 1,
    startTime := 480, endTime := 570, room := "R1", academicPeriodId := 9,
    isActive := true }

/-- The row `bulkCreateSchedules` inserts for `bulkReqB`. -/
def bulkCreatedB : ClassSchedule :=
  { id := 2, teacherId := 2, classId := 3, subjectId := 5, dayOfWeek := 1,
    startTime := 540, endTime := 600, room := "R2", academicPeriodId := 9,
    isActive := true }

/-- C8: a bulk call with two mutually overlapping candidates (same teacher,
class, day and period) against an empty persisted store succeeds and
creates both rows, because each candidate is conflict-checked only against
persisted state; the final conjunct shows the second candidate WOULD have
been rejected had the first already been persisted. -/
theorem bulkCreateSchedules_admits_batch_conflict :
    bulkCreateSchedules [bulkReqA, bulkReqB] emptyStore =
      .ok { emptyStore with
        schedules := [bulkCreatedA, bulkCreatedB], nextScheduleId := 3 }
    ∧ overlapsRange bulkReqB.startTime bulkReqB.endTime bulkCreatedA = true
    ∧ overlapsRange bulkReqA.startTime bulkReqA.endTime bulkCreatedB = true
    ∧ bulkReqA.teacherId = bulkReqB.teacherId
    ∧ bulkReqA.classId = bulkReqB.classId
    ∧ bulkReqA.dayOfWeek = bulkReqB.dayOfWeek
    ∧ bulkReqA.academicPeriodId = bulkReqB.academicPeriodId
    ∧ (checkTimeConflict (toConflictParams bulkReqB)
        [bulkCreatedA]).hasConflict = true :=
  ⟨rfl, rfl, rfl, rfl, rfl, rfl, rfl, rfl⟩

theorem resultOk_error (e : ResponseError) : resultOk (.error e) = false := rfl

theorem resultOk_ok (s : Store) : resultOk (.ok s) = true := rfl

/-- C2: once a session is `completed` or `cancelled`, every mutating call —
`updateSessionStatus`, bulk `markAttendance`, `markSingleAttendance` for
any row of that session, and `studentCheckIn` — fails, so the session and
its attendance rows can never change again. -/
theorem terminal_session_frozen (st : Store) (now sid : Nat)
    (session : Session)
    (hfind : findSession st sid = some session)
    (hterm : session.status = .completed ∨ session.status = .cancelled) :
    (∀ status profileId,
      resultOk (updateSessionStatus ⟨sid, status, profileId⟩ now st) = false)
    ∧ (∀ upds profileId,
      resultOk (markAttendance ⟨sid, upds, profileId⟩ now st) = false)
    ∧ (∀ aid stt nts profileId att,
        findAttendanceById st aid = some att →
        att.attendanceSessionId = sid →
        resultOk (markSingleAttendance ⟨aid, stt, nts, profileId⟩ now st) =
          false)
    ∧ (∀ stu m conf,
      resultOk (studentCheckIn ⟨sid, stu, m, conf⟩ now st) = false) := by
  refine ⟨?_, ?_, ?_, ?_⟩
  · intro status profileId
    unfold updateSessionStatus
    dsimp only
    split
    · rfl
    split
    · rfl
    split
    · rfl
    rw [hfind]
    dsimp only
    split
    · rfl
    rcases hterm with h | h <;> simp [h, resultOk]
  · intro upds profileId
    unfold markAttendance
    dsimp only
    split
    · rfl
    split
    · rfl
    split
    · rfl
    split
    · rfl
    split
    · rfl
    rw [hfind]
    dsimp only
    split
    · rfl
    rcases hterm with h | h <;> simp [h, validateSessionActive, resultOk]
  · intro aid stt nts profileId att hatt hsid
    unfold markSingleAttendance
    dsimp only
    split
    · rfl
    split
    · rfl
    split
    · rfl
    rw [hatt]
    dsimp only
    rw [hsid, hfind]
    dsimp only
    split
    · rfl
    rcases hterm with h | h <;> simp [h, validateSessionActive, resultOk]
  · intro stu m conf
    unfold studentCheckIn
    dsimp only
    split
    · rfl
    split
    · rfl
    split
    · rfl
    rw [hfind]
    dsimp only
    rcases hterm with h | h <;> simp [h, resultOk]

/-- A completed session owned by teacher 7. -/
def sessionDone : Session :=
  { id := 1, classScheduleId := 1, date := 1000, status := .completed,
    startedAt := 1000, endedAt := some 1100, notes := none, createdBy := 7 }

/-- An attendance row of the completed session. -/
def attDone : AttendanceRecord :=
  { id := 11, attendanceSessionId := 1, studentId := 5, status := .present,
    checkInTime := some 1005, attendanceMethod := some .manual,
    faceConfidence := none, markedBy := some 7, notes := none }

/-- The schedule behind the completed session. -/
def schedDone : ClassSchedule :=
  { id := 1, teacherId := 7, classId := 3, subjectId := 4, dayOfWeek := 1,
    startTime := 480, endTime := 570, room := "R1", academicPeriodId := 9,
    isActive := true }

/-- A store whose only session is terminal. -/
def storeDone : Store :=
  { schedules := [schedDone], classes := [⟨3, [5]⟩],
    sessions := [sessionDone], attendances := [attDone],
    nextScheduleId := 2, nextSessionId := 2, nextAttendanceId := 12 }

/-- C2 witness: all four mutating calls fail on the completed session. -/
theorem terminal_session_frozen_witness :
    resultOk (updateSessionStatus ⟨1, "completed", 7⟩ 1200 storeDone) = false
    ∧ resultOk (markAttendance ⟨1, [⟨11, .present, none⟩], 7⟩ 1200
        storeDone) = false
    ∧ resultOk (markSingleAttendance ⟨11, .late, none, 7⟩ 1200 storeDone) =
        false
    ∧ resultOk (studentCheckIn ⟨1, 5, none, none⟩ 1200 storeDone) = false := by
  have h := terminal_session_frozen storeDone 1200 1 sessionDone (by rfl)
    (Or.inl rfl)
  exact ⟨h.1 "completed" 7, h.2.1 [⟨11, .present, none⟩] 7,
    h.2.2.1 11 .late none 7 attDone (by rfl) rfl, h.2.2.2 5 none none⟩

/-- An ongoing session owned by teacher 7, dated at instant 1000. -/
def sessionLive : Session :=
  { id := 1, classScheduleId := 1, date := 1000, status := .ongoing,
    startedAt := 1000, endedAt := none, notes := none, createdBy := 7 }

/-- The still-absent attendance row of student 5 in the ongoing session. -/
def attLive : AttendanceRecord :=
  { id := 11, attendanceSessionId := 1, studentId := 5, status := .absent,
    checkInTime := none, attendanceMethod := none, faceConfidence := none,
    markedBy := none, notes := none }

/-- A store whose only session is ongoing with one absent row. -/
def storeLive : Store :=
  { schedules := [schedDone], classes := [⟨3, [5]⟩],
    sessions := [sessionLive], attendances := [attLive],
    nextScheduleId := 2, nextSessionId := 2, nextAttendanceId := 12 }

/-- C3 counterexample: requesting `ongoing` again on an ongoing session is
NOT rejected as a Validation error — the Joi enum lists `ongoing` and the
service applies the write (here a no-op), returning ok. -/
theorem updateSessionStatus_ongoing_not_rejected :
    updateSessionStatus ⟨1, "ongoing", 7⟩ 1200 storeLive = .ok storeLive := by
  rfl

/-- C3 amended: for an ongoing owned session, a requested value outside
{ongoing, completed, cancelled} is rejected as a Validation error;
`completed` and `cancelled` are applied with `endedAt = now`; but
requesting `ongoing` again is also accepted and applied (status stays
`ongoing`, `endedAt` written to null), not rejected. -/
theorem updateSessionStatus_ongoing_transitions (st : Store)
    (now sid pid : Nat) (session : Session)
    (hsid : ¬(sid = 0)) (hpid : ¬(pid = 0))
    (hfind : findSession st sid = some session)
    (hown : session.createdBy = pid)
    (hongoing : session.status = .ongoing) :
    (∀ status, ¬ status ∈ validStatusStrings →
      updateSessionStatus ⟨sid, status, pid⟩ now st =
        .error ⟨400, "Status must be one of: ongoing, completed, cancelled"⟩)
    ∧ updateSessionStatus ⟨sid, "completed", pid⟩ now st =
        .ok { st with sessions := st.sessions.map (fun s =>
          if s.id == sid then
            { s with status := .completed, endedAt := some now } else s) }
    ∧ updateSessionStatus ⟨sid, "cancelled", pid⟩ now st =
        .ok { st with sessions := st.sessions.map (fun s =>
          if s.id == sid then
            { s with status := .cancelled, endedAt := some now } else s) }
    ∧ updateSessionStatus ⟨sid, "ongoing", pid⟩ now st =
        .ok { st with sessions := st.sessions.map (fun s =>
          if s.id == sid then
            { s with status := .ongoing, endedAt := none } else s) } := by
  have hnotown : ¬(session.createdBy ≠ pid) := fun hne => hne hown
  have hnotc : ¬(session.status = SessionStatus.completed) := by
    rw [hongoing]; simp
  have hnotx : ¬(session.status = SessionStatus.cancelled) := by
    rw [hongoing]; simp
  refine ⟨?_, ?_, ?_, ?_⟩
  · intro status hstatus
    unfold updateSessionStatus
    dsimp only
    rw [if_neg hsid, if_pos (by simpa [validStatusStrings] using hstatus)]
  · unfold updateSessionStatus
    dsimp only
    rw [if_neg hsid, if_neg (by simp [validStatusStrings]), if_neg hpid,
      hfind]
    dsimp only
    rw [if_neg hnotown, if_neg hnotc, if_neg hnotx]
    rfl
  · unfold updateSessionStatus
    dsimp only
    rw [if_neg hsid, if_neg (by simp [validStatusStrings]), if_neg hpid,
      hfind]
    dsimp only
    rw [if_neg hnotown, if_neg hnotc, if_neg hnotx]
    rfl
  · unfold updateSessionStatus
    dsimp only
    rw [if_neg hsid, if_neg (by simp [validStatusStrings]), if_neg hpid,
      hfind]
    dsimp only
    rw [if_neg hnotown, if_neg hnotc, if_neg hnotx]
    rfl

/-- C3 amended witness: an unknown status is a Validation error while
`completed` is applied with the completion timestamp. -/
theorem updateSessionStatus_ongoing_transitions_witness :
    updateSessionStatus ⟨1, "paused", 7⟩ 1200 storeLive =
      .error ⟨400, "Status must be one of: ongoing, completed, cancelled"⟩
    ∧ updateSessionStatus ⟨1, "completed", 7⟩ 1200 storeLive =
      .ok { storeLive with sessions := storeLive.sessions.map (fun s =>
        if s.id == 1 then
          { s with status := .completed, endedAt := some 1200 } else s) } := by
  have h := updateSessionStatus_ongoing_transitions storeLive 1200 1 7
    sessionLive (by decide) (by decide) (by rfl) rfl rfl
  exact ⟨h.1 "paused" (by decide), h.2.1⟩

theorem find?_map_congr {α : Type} (p : α → Bool) (f : α → α) :
    ∀ l : List α, (∀ a ∈ l, p (f a) = p a) →
      (l.map f).find? p = (l.find? p).map f
  | [], _ => rfl
  | a :: t, hpres => by
    by_cases hp : p a = true
    · rw [List.map_cons,
        List.find?_cons_of_pos _
          (by rw [hpres a (List.mem_cons_self a t)]; exact hp),
        List.find?_cons_of_pos _ hp]
      rfl
    · rw [List.map_cons,
        List.find?_cons_of_neg _
          (by rw [hpres a (List.mem_cons_self a t)]; exact hp),
        List.find?_cons_of_neg _ hp]
      exact find?_map_congr p f t
        (fun x hx => hpres x (List.mem_cons_of_mem a hx))

theorem determineAttendanceStatus_ne_absent (c d s t : Nat) :
    determineAttendanceStatus c d s t ≠ .absent := by
  unfold determineAttendanceStatus
  dsimp only
  split <;> simp

theorem findSession_setAtts (st : Store) (l : List AttendanceRecord)
    (i : Nat) : findSession { st with attendances := l } i =
      findSession st i := rfl

theorem findAttendanceFor_setAtts (st : Store) (l : List AttendanceRecord)
    (i j : Nat) : findAttendanceFor { st with attendances := l } i j =
      l.find? (fun a => a.attendanceSessionId == i && a.studentId == j) :=
  rfl

/-- C4: a successful `studentCheckIn` requires that the session exists and
is ongoing and that the student's attendance row exists and is still
`absent`; and after one success, a second check-in with the same request
always fails with the already-checked-in Conflict, so at most one check-in
per (session, student) can ever succeed. -/
theorem studentCheckIn_success_conditions (req : CheckInRequest) (now : Nat)
    (st st2 : Store) (h : studentCheckIn req now st = .ok st2) :
    (∃ session, findSession st req.sessionId = some session ∧
      session.status = .ongoing)
    ∧ (∃ att, findAttendanceFor st req.sessionId req.studentId = some att ∧
      att.status = .absent)
    ∧ ∀ now2, studentCheckIn req now2 st2 =
        .error ⟨400, "Already checked in for this session"⟩ := by
  unfold studentCheckIn at h
  split at h
  · simp at h
  rename_i h1
  split at h
  · simp at h
  rename_i h2
  split at h
  · simp at h
  rename_i h3
  split at h
  · simp at h
  rename_i session heqS
  split at h
  · simp at h
  rename_i hOng
  split at h
  · simp at h
  rename_i att heqA
  split at h
  · simp at h
  rename_i hAbs
  split at h
  · simp at h
  rename_i schedule heqSch
  injection h with hst2
  subst hst2
  have hongoing : session.status = .ongoing := not_not.mp hOng
  have hAbsent : att.status = .absent := not_not.mp hAbs
  refine ⟨⟨session, heqS, hongoing⟩, ⟨att, heqA, hAbsent⟩, ?_⟩
  intro now2
  unfold studentCheckIn
  dsimp only
  rw [if_neg h1, if_neg h2, if_neg h3, findSession_setAtts, heqS]
  dsimp only
  rw [if_neg hOng, findAttendanceFor_setAtts]
  rw [find?_map_congr _ _ _ (by
    intro a ha
    by_cases hid : (a.id == att.id) = true <;> simp [hid])]
  have heqA2 : st.attendances.find? (fun a =>
      a.attendanceSessionId == req.sessionId &&
      a.studentId == req.studentId) = some att := heqA
  rw [heqA2]
  simp only [Option.map, beq_self_eq_true, if_true]
  rw [if_pos (show _ ≠ AttStatus.absent from
    determineAttendanceStatus_ne_absent now session.date
      schedule.startTime 15)]

/-- The store after student 5 checks in at instant 1485 (10 minutes into
the 08:00 slot of the session dated 1000). -/
def checkInOut : Store :=
  { storeLive with attendances :=
    [{ id := 11, attendanceSessionId := 1, studentId := 5,
       status := .present, checkInTime := some 1485,
       attendanceMethod := some .faceRecognition, faceConfidence := none,
       markedBy := none, notes := none }] }

/-- C4 witness: after the successful check-in, a retry at any later time
fails with the already-checked-in Conflict. -/
theorem studentCheckIn_success_conditions_witness :
    studentCheckIn ⟨1, 5, none, none⟩ 9999 checkInOut =
      .error ⟨400, "Already checked in for this session"⟩ :=
  (studentCheckIn_success_conditions ⟨1, 5, none, none⟩ 1485 storeLive
    checkInOut (by rfl)).2.2 9999

theorem mkAttendanceRows_length (sid : Nat) :
    ∀ (base : Nat) (students : List Nat),
      (mkAttendanceRows base sid students).length = students.length
  | _, [] => rfl
  | base, _ :: rest => by
    simp [mkAttendanceRows, mkAttendanceRows_length sid (base + 1) rest]

theorem mkAttendanceRows_studentIds (sid : Nat) :
    ∀ (base : Nat) (students : List Nat),
      (mkAttendanceRows base sid students).map AttendanceRecord.studentId =
        students
  | _, [] => rfl
  | base, _ :: rest => by
    simp [mkAttendanceRows, mkAttendanceRows_studentIds sid (base + 1) rest]

theorem mkAttendanceRows_absent (sid : Nat) :
    ∀ (base : Nat) (students : List Nat),
      ∀ a ∈ mkAttendanceRows base sid students,
        a.status = .absent ∧ a.checkInTime = none ∧
          a.attendanceSessionId = sid
  | _, [], a, ha => by simp [mkAttendanceRows] at ha
  | base, stu :: rest, a, ha => by
    rcases List.mem_cons.mp ha with h | h
    · subst h
      exact ⟨rfl, rfl, rfl⟩
    · exact mkAttendanceRows_absent sid (base + 1) rest a h

/-- C6: a schema-valid `createSession` on an owned active schedule with no
duplicate session for that date succeeds, creating the session with status
`ongoing` and `startedAt = now`, plus exactly one attendance row per
student currently enrolled in the slot's class, each `absent` with null
`checkInTime`. -/
theorem createSession_roster_snapshot (req : CreateSessionRequest)
    (now : Nat) (st : Store) (schedule : ClassSchedule) (cls : SchoolClass)
    (hv1 : ¬(req.classScheduleId = 0))
    (hv2 : ¬((req.notes.getD "").length > 500))
    (hv3 : ¬(req.profileId = 0))
    (hsched : findOwnedActiveSchedule st req.classScheduleId req.profileId =
      some schedule)
    (hcls : findClass st schedule.classId = some cls)
    (hdup : findDuplicateSession st req.classScheduleId req.date = none) :
    createSession req now st = .ok
      { st with
        sessions := st.sessions ++
          [{ id := st.nextSessionId,
             classScheduleId := req.classScheduleId,
             date := req.date, status := .ongoing, startedAt := now,
             endedAt := none, notes := jsStrOrNull req.notes,
             createdBy := req.profileId }],
        attendances := st.attendances ++
          mkAttendanceRows st.nextAttendanceId st.nextSessionId
            cls.students,
        nextSessionId := st.nextSessionId + 1,
        nextAttendanceId := st.nextAttendanceId + cls.students.length }
    ∧ (mkAttendanceRows st.nextAttendanceId st.nextSessionId
        cls.students).length = cls.students.length
    ∧ (mkAttendanceRows st.nextAttendanceId st.nextSessionId
        cls.students).map AttendanceRecord.studentId = cls.students
    ∧ ∀ a ∈ mkAttendanceRows st.nextAttendanceId st.nextSessionId
        cls.students, a.status = .absent ∧ a.checkInTime = none := by
  refine ⟨?_, mkAttendanceRows_length _ _ _,
    mkAttendanceRows_studentIds _ _ _,
    fun a ha => ⟨(mkAttendanceRows_absent _ _ _ a ha).1,
      (mkAttendanceRows_absent _ _ _ a ha).2.1⟩⟩
  unfold createSession
  rw [if_neg hv1, if_neg hv2, if_neg hv3, hsched]
  dsimp only
  rw [hcls]
  dsimp only
  rw [hdup]

/-- C6 witness: creating a second dated session on the live store yields
the expected one-row roster snapshot. -/
theorem createSession_roster_snapshot_witness :
    createSession ⟨1, 2000, none, 7⟩ 1900 storeLive = .ok
      { storeLive with
        sessions := storeLive.sessions ++
          [{ id := 2, classScheduleId := 1, date := 2000,
             status := .ongoing, startedAt := 1900, endedAt := none,
             notes := none, createdBy := 7 }],
        attendances := storeLive.attendances ++ mkAttendanceRows 12 2 [5],
        nextSessionId := 3, nextAttendanceId := 13 }
    ∧ (mkAttendanceRows 12 2 [5]).length = 1 := by
  have h := createSession_roster_snapshot ⟨1, 2000, none, 7⟩ 1900 storeLive
    schedDone ⟨3, [5]⟩ (by decide) (by decide) (by decide) (by rfl)
    (by rfl) (by rfl)
  exact ⟨h.1, h.2.1⟩

/-- The data-model invariant: `checkInTime` is non-null only when the
status is not `absent` (stated contrapositively). -/
def checkInInvariant (st : Store) : Prop :=
  ∀ a ∈ st.attendances, a.status = .absent → a.checkInTime = none

/-- The record-level invariant used in the preservation proofs. -/
def recInv (a : AttendanceRecord) : Prop :=
  a.status = .absent → a.checkInTime = none

theorem applyMark_recInv (now pid : Nat) (upd : AttendanceUpdate)
    (a : AttendanceRecord) : recInv (applyMark now pid upd a) := by
  intro habs
  simp only [applyMark] at habs ⊢
  rw [if_neg (fun hne => hne habs)]

theorem runMarkTx_recInv (sid now pid : Nat) :
    ∀ (upds : List AttendanceUpdate) (l l2 : List AttendanceRecord),
      runMarkTx sid now pid upds l = .ok l2 →
      (∀ a ∈ l, recInv a) → ∀ b ∈ l2, recInv b
  | [], l, l2, h, hl => by
    unfold runMarkTx at h
    injection h with h2
    subst h2
    exact hl
  | upd :: rest, l, l2, h, hl => by
    unfold runMarkTx at h
    split at h
    · refine runMarkTx_recInv sid now pid rest _ l2 h ?_
      intro b hb
      rcases List.mem_map.mp hb with ⟨a, ha, hfa⟩
      subst hfa
      by_cases hc : (a.id == upd.attendanceId &&
          a.attendanceSessionId == sid) = true
      · rw [if_pos hc]
        exact applyMark_recInv now pid upd a
      · rw [if_neg hc]
        exact hl a ha
    · simp at h

/-- C7: every operation that writes attendance rows — `createSession`,
bulk `markAttendance`, `markSingleAttendance` and `studentCheckIn` —
preserves the invariant that an `absent` row has a null `checkInTime`
(equivalently, `checkInTime` is non-null only when status is not absent):
creation writes `absent` rows with no check-in time, teacher marking
writes `checkInTime = now` exactly when the new status is not absent, and
check-in writes a non-null `checkInTime` only with status present/late. -/
theorem writes_preserve_checkin_invariant (now : Nat) (st st2 : Store)
    (hinv : checkInInvariant st) :
    (∀ req : CreateSessionRequest,
      createSession req now st = .ok st2 → checkInInvariant st2)
    ∧ (∀ req : MarkAttendanceRequest,
      markAttendance req now st = .ok st2 → checkInInvariant st2)
    ∧ (∀ req : MarkSingleRequest,
      markSingleAttendance req now st = .ok st2 → checkInInvariant st2)
    ∧ (∀ req : CheckInRequest,
      studentCheckIn req now st = .ok st2 → checkInInvariant st2) := by
  refine ⟨?_, ?_, ?_, ?_⟩
  · intro req h
    unfold createSession at h
    split at h
    · simp at h
    split at h
    · simp at h
    split at h
    · simp at h
    split at h
    · simp at h
    rename_i schedule heqSched
    split at h
    · simp at h
    rename_i cls heqCls
    split at h
    · simp at h
    injection h with h2
    subst h2
    intro a ha
    rcases List.mem_append.mp ha with hmem | hmem
    · exact hinv a hmem
    · intro _
      exact (mkAttendanceRows_absent _ _ _ a hmem).2.1
  · intro req h
    unfold markAttendance at h
    split at h
    · simp at h
    split at h
    · simp at h
    split at h
    · simp at h
    split at h
    · simp at h
    split at h
    · simp at h
    split at h
    · simp at h
    rename_i session heqS
    split at h
    · simp at h
    split at h
    · simp at h
    split at h
    · simp at h
    rename_i l2 heqTx
    injection h with h2
    subst h2
    exact runMarkTx_recInv _ _ _ _ _ _ heqTx hinv
  · intro req h
    unfold markSingleAttendance at h
    split at h
    · simp at h
    split at h
    · simp at h
    split at h
    · simp at h
    split at h
    · simp at h
    rename_i att heqA
    split at h
    · simp at h
    rename_i session heqS
    split at h
    · simp at h
    split at h
    · simp at h
    injection h with h2
    subst h2
    intro b hb
    rcases List.mem_map.mp hb with ⟨a, ha, hfa⟩
    subst hfa
    by_cases hc : (a.id == req.attendanceId) = true
    · rw [if_pos hc]
      exact applyMark_recInv now req.profileId _ a
    · rw [if_neg hc]
      exact hinv a ha
  · intro req h
    unfold studentCheckIn at h
    split at h
    · simp at h
    split at h
    · simp at h
    split at h
    · simp at h
    split at h
    · simp at h
    rename_i session heqS
    split at h
    · simp at h
    split at h
    · simp at h
    rename_i att heqA
    split at h
    · simp at h
    split at h
    · simp at h
    rename_i schedule heqSch
    injection h with h2
    subst h2
    intro b hb
    rcases List.mem_map.mp hb with ⟨a, ha, hfa⟩
    subst hfa
    by_cases hc : (a.id == att.id) = true
    · rw [if_pos hc]
      intro habs
      exact absurd habs (determineAttendanceStatus_ne_absent now
        session.date schedule.startTime 15)
    · rw [if_neg hc]
      exact hinv a ha

/-- The store after the teacher re-marks the single live row `absent`. -/
def markSingleOut : Store :=
  { storeLive with attendances :=
    [{ id := 11, attendanceSessionId := 1, studentId := 5,
       status := .absent, checkInTime := none,
       attendanceMethod := some .manual, faceConfidence := none,
       markedBy := some 7, notes := none }] }

/-- C7 witness: the invariant holds after a concrete single mark. -/
theorem writes_preserve_checkin_invariant_witness :
    checkInInvariant markSingleOut :=
  (writes_preserve_checkin_invariant 1300 storeLive markSingleOut
    (by unfold checkInInvariant; decide)).2.2.1 ⟨11, .absent, none, 7⟩
    (by rfl)

/-- Pointwise relation between an attendance list and its state after a
bulk-mark transaction on session `sid`: ids and session keys are never
rewritten, and any row belonging to a different session is untouched. -/
def MarkFrame (sid : Nat) (a b : AttendanceRecord) : Prop :=
  b.id = a.id ∧ b.attendanceSessionId = a.attendanceSessionId ∧
    (a.attendanceSessionId ≠ sid → b = a)

theorem markFrame_trans (sid : Nat) :
    ∀ {l1 l2 l3 : List AttendanceRecord},
      List.Forall₂ (MarkFrame sid) l1 l2 →
      List.Forall₂ (MarkFrame sid) l2 l3 →
      List.Forall₂ (MarkFrame sid) l1 l3 := by
  intro l1 l2 l3 h12
  induction h12 generalizing l3 with
  | nil =>
    intro h23
    cases h23
    exact List.Forall₂.nil
  | cons hab htail ih =>
    intro h23
    cases h23 with
    | cons hbc htail2 =>
      refine List.Forall₂.cons ?_ (ih htail2)
      obtain ⟨hid1, hsid1, heq1⟩ := hab
      obtain ⟨hid2, hsid2, heq2⟩ := hbc
      refine ⟨hid2.trans hid1, hsid2.trans hsid1, ?_⟩
      intro hne
      rw [heq2 (by rw [hsid1]; exact hne), heq1 hne]

theorem markFrame_step (sid now pid : Nat) (upd : AttendanceUpdate)
    (l : List AttendanceRecord) :
    List.Forall₂ (MarkFrame sid) l (l.map (fun a =>
      if a.id == upd.attendanceId && a.attendanceSessionId == sid then
        applyMark now pid upd a else a)) := by
  induction l with
  | nil => exact List.Forall₂.nil
  | cons a t ih =>
    rw [List.map_cons]
    refine List.Forall₂.cons ?_ ih
    by_cases hc : (a.id == upd.attendanceId &&
        a.attendanceSessionId == sid) = true
    · rw [if_pos hc]
      refine ⟨rfl, rfl, ?_⟩
      intro hne
      exfalso
      exact hne (by simpa using ((Bool.and_eq_true _ _).mp hc).2)
    · rw [if_neg hc]
      exact ⟨rfl, rfl, fun _ => rfl⟩

theorem runMarkTx_frame (sid now pid : Nat) :
    ∀ (upds : List AttendanceUpdate) (l l2 : List AttendanceRecord),
      runMarkTx sid now pid upds l = .ok l2 →
      List.Forall₂ (MarkFrame sid) l l2 ∧
      ∀ u ∈ upds, ∃ a ∈ l, a.id = u.attendanceId ∧
        a.attendanceSessionId = sid
  | [], l, l2, h => by
    unfold runMarkTx at h
    injection h with h2
    subst h2
    exact ⟨List.forall₂_same.mpr (fun a _ => ⟨rfl, rfl, fun _ => rfl⟩),
      by simp⟩
  | upd :: rest, l, l2, h => by
    unfold runMarkTx at h
    split at h
    · obtain ⟨hf, hupds⟩ := runMarkTx_frame sid now pid rest _ l2 h
      refine ⟨markFrame_trans sid (markFrame_step sid now pid upd l) hf, ?_⟩
      intro u hu
      rcases List.mem_cons.mp hu with rfl | hmem
      · rename_i hfound
        rcases List.find?_isSome.mp hfound with ⟨a, ha, hpa⟩
        simp only [Bool.and_eq_true, beq_iff_eq] at hpa
        exact ⟨a, ha, hpa.1, hpa.2⟩
      · rcases hupds u hmem with ⟨b, hb, hkey1, hkey2⟩
        rcases List.mem_map.mp hb with ⟨a, ha, hab⟩
        have hga : ((if a.id == upd.attendanceId &&
            a.attendanceSessionId == sid then applyMark now pid upd a
            else a).id = a.id) ∧
            ((if a.id == upd.attendanceId &&
            a.attendanceSessionId == sid then applyMark now pid upd a
            else a).attendanceSessionId = a.attendanceSessionId) := by
          by_cases hc : (a.id == upd.attendanceId &&
              a.attendanceSessionId == sid) = true
          · rw [if_pos hc]
            exact ⟨rfl, rfl⟩
          · rw [if_neg hc]
            exact ⟨rfl, rfl⟩
        rw [hab] at hga
        exact ⟨a, ha, hga.1 ▸ hkey1, hga.2 ▸ hkey2⟩
    · simp at h

/-- C10: a successful bulk `markAttendance` on session S touches no
session row and no attendance row of any other session — each updated row
keeps its id and session key and rows with a different session key are
returned verbatim (positionally identical) — and every update entry must
have matched a row of session S in the pre-state; consequently an entry
whose attendanceId belongs to a different session can never be part of a
successful batch (the transaction fails and nothing is committed). -/
theorem markAttendance_frame (req : MarkAttendanceRequest) (now : Nat)
    (st st2 : Store) (h : markAttendance req now st = .ok st2) :
    st2.sessions = st.sessions
    ∧ List.Forall₂ (MarkFrame req.sessionId) st.attendances st2.attendances
    ∧ (∀ u ∈ req.attendances, ∃ a ∈ st.attendances,
        a.id = u.attendanceId ∧ a.attendanceSessionId = req.sessionId)
    ∧ ∀ i (hi : i < st.attendances.length)
        (hi2 : i < st2.attendances.length),
        (st.attendances.get ⟨i, hi⟩).attendanceSessionId ≠ req.sessionId →
        st2.attendances.get ⟨i, hi2⟩ = st.attendances.get ⟨i, hi⟩ := by
  unfold markAttendance at h
  split at h
  · simp at h
  split at h
  · simp at h
  split at h
  · simp at h
  split at h
  · simp at h
  split at h
  · simp at h
  split at h
  · simp at h
  rename_i session heqS
  split at h
  · simp at h
  split at h
  · simp at h
  split at h
  · simp at h
  rename_i l2 heqTx
  injection h with h2
  subst h2
  obtain ⟨hf, hupds⟩ := runMarkTx_frame req.sessionId now req.profileId
    req.attendances st.attendances l2 heqTx
  exact ⟨rfl, hf, hupds,
    fun _ hi hi2 hne => ((hf.get hi hi2).2.2 hne)⟩

/-- The store after the teacher bulk-marks the single live row present. -/
def markBulkOut : Store :=
  { storeLive with attendances :=
    [{ id := 11, attendanceSessionId := 1, studentId := 5,
       status := .present, checkInTime := some 1300,
       attendanceMethod := some .manual, faceConfidence := none,
       markedBy := some 7, notes := none }] }

/-- C10 witness: a concrete successful bulk mark leaves the session list
untouched. -/
theorem markAttendance_frame_witness :
    markBulkOut.sessions = storeLive.sessions :=
  (markAttendance_frame ⟨1, [⟨11, .present, none⟩], 7⟩ 1300 storeLive
    markBulkOut (by rfl)).1
